import Mathlib

/-!
# Wörterbuch — verification of spec claims against a shallow embedding

This file embeds the parts of the wb-pro repository that the claims under
scrutiny talk about and proves (or refutes) each claim:

* the subscriber trie (`worterbuch/src/subscribers.rs`): pattern storage and
  key matching (`get_subscribers` / `add_matches` / `add_all_children`),
  `add_subscriber` and `unsubscribe`;
* the JSON framing of server messages (`worterbuch-common/src/server.rs`):
  serde-derived encode/decode modelled on JSON trees;
* the binary codec (`worterbuch-codec/src/lib.rs`): frame layouts and length
  guards;
* the WebSocket session keepalive logic
  (`worterbuch/src/server/poem/websocket.rs`);
* the session message processing
  (`worterbuch/src/server/common.rs`): error frames, authorization patterns,
  the aggregation loop.

Rust `HashMap`s are modelled as association lists (first binding wins, as a
`HashMap` holds at most one binding per key); `Instant`s are modelled as `Nat`
time stamps (Rust `Instant` subtraction saturates at zero, as does `Nat`
subtraction); `u64`/`u16`/`u32` values are modelled as `Nat`.
-/

namespace Worterbuch

/-! ## Subscriber trie (`worterbuch/src/subscribers.rs`)

`KeySegment` is the segment type of `worterbuch_common` used by the trie:
a regular (literal) segment, the single-level wildcard `?`, or the
multi-level wildcard `#`. `RegularKeySegment` is a plain string. -/

/-- A regular key segment (Rust `RegularKeySegment = String`). -/
abbrev RegularKeySegment := String

/-- A pattern segment: literal, `?` or `#` (Rust `worterbuch_common::KeySegment`). -/
inductive KeySegment where
  | literal (s : String)
  | wildcard
  | multiWildcard
deriving DecidableEq, Repr

/-- Subscription identifier (Rust `SubscriptionId`): client UUID (modelled as
`Nat`) plus transaction id. -/
structure SubscriptionId where
  client_id : Nat
  transaction_id : Nat
deriving DecidableEq, Repr

/-- A subscriber (Rust `Subscriber`). The event channel `tx` is not part of the
model; it does not influence trie bookkeeping. -/
structure Subscriber where
  pattern : List KeySegment
  id : SubscriptionId
  unique : Bool
deriving DecidableEq, Repr

/-- A subscriber-trie node (Rust `Node { subscribers: Subs, tree: Tree }`);
the child map (`Tree = HashMap<KeySegment, Node>`) is modelled as an
association list. -/
inductive Node where
  | mk (subscribers : List Subscriber) (tree : List (KeySegment × Node))

/-- Subscriber list of a node. -/
def Node.subscribers : Node → List Subscriber
  | .mk subs _ => subs

/-- Child map of a node. -/
def Node.tree : Node → List (KeySegment × Node)
  | .mk _ t => t

/-- The empty node (Rust `Node::default()`). -/
def Node.empty : Node := .mk [] []

/-- `HashMap::get`: the node bound to `seg`, if any. -/
def findSeg : List (KeySegment × Node) → KeySegment → Option Node
  | [], _ => none
  | (k, n) :: rest, seg => if seg = k then some n else findSeg rest seg

/-- `HashMap` insertion/in-place update: replaces the binding of `seg` if
present, otherwise adds one. -/
def setSeg : List (KeySegment × Node) → KeySegment → Node → List (KeySegment × Node)
  | [], seg, v => [(seg, v)]
  | (k, n) :: rest, seg, v =>
      if seg = k then (k, v) :: rest else (k, n) :: setSeg rest seg v

/-- The whole subscriber store (Rust `Subscribers { data: Node }`). -/
structure Subscribers where
  data : Node

/-- `Subscribers::add_subscriber`, inner recursion: descend along the pattern,
creating default nodes for vacant entries (the Rust `Entry::Occupied` /
`Entry::Vacant` match is folded into `(find …).getD Node.empty`), and append
the subscriber at the final node. -/
def Node.addSubscriber : Node → List KeySegment → Subscriber → Node
  | .mk subs tree, [], s => .mk (subs ++ [s]) tree
  | .mk subs tree, seg :: ps, s =>
      .mk subs (setSeg tree seg (Node.addSubscriber ((findSeg tree seg).getD Node.empty) ps s))

/-- `Subscribers::add_subscriber`. -/
def Subscribers.add_subscriber (sub : Subscribers) (pattern : List KeySegment)
    (s : Subscriber) : Subscribers :=
  ⟨sub.data.addSubscriber pattern s⟩

mutual
/-- `add_all_children`: all subscribers of a node and of its entire subtree. -/
def add_all_children : Node → List Subscriber
  | .mk subs tree => subs ++ add_all_children_tree tree

/-- `add_all_children` folded over `tree.values()`. -/
def add_all_children_tree : List (KeySegment × Node) → List Subscriber
  | [] => []
  | (_, n) :: rest => add_all_children n ++ add_all_children_tree rest
end

/-- `add_matches`: walk the trie along the key. In every step the `?` child is
descended with the remaining key, the `#` child contributes its entire subtree,
and the walk continues into the literal child; when the key is exhausted the
current node's subscribers are collected. -/
def add_matches : Node → List RegularKeySegment → List Subscriber
  | .mk subs _, [] => subs
  | .mk _ tree, elem :: rest =>
      (match findSeg tree .wildcard with
        | some nd => add_matches nd rest
        | none => []) ++
      ((match findSeg tree .multiWildcard with
        | some nd => add_all_children nd
        | none => []) ++
      (match findSeg tree (.literal elem) with
        | some nd => add_matches nd rest
        | none => []))

/-- `Subscribers::get_subscribers`. -/
def Subscribers.get_subscribers (sub : Subscribers) (key : List RegularKeySegment) :
    List Subscriber :=
  add_matches sub.data key

/-- `Subscribers::unsubscribe`, inner recursion: walk to the node addressed by
the pattern (returning the trie unchanged and `false` when a step is missing),
then drop every subscriber with the given id, reporting whether any was
dropped. -/
def Node.unsubscribe : Node → List KeySegment → SubscriptionId → Node × Bool
  | .mk subs tree, [], subscription =>
      (.mk (subs.filter (fun s => s.id ≠ subscription)) tree,
        subs.any (fun s => s.id = subscription))
  | .mk subs tree, seg :: ps, subscription =>
      match findSeg tree seg with
      | none => (.mk subs tree, false)
      | some child =>
          let res := Node.unsubscribe child ps subscription
          (.mk subs (setSeg tree seg res.1), res.2)

/-- `Subscribers::unsubscribe`. -/
def Subscribers.unsubscribe (sub : Subscribers) (pattern : List KeySegment)
    (subscription : SubscriptionId) : Subscribers × Bool :=
  let res := sub.data.unsubscribe pattern subscription
  (⟨res.1⟩, res.2)

/-- The node addressed by a pattern (pure lookup walk, used to state frame
conditions about `unsubscribe`). -/
def Node.nodeAt : Node → List KeySegment → Option Node
  | n, [] => some n
  | .mk _ tree, seg :: ps =>
      match findSeg tree seg with
      | some child => Node.nodeAt child ps
      | none => none

/-- A pattern is legal when `#` occurs only as its final segment. -/
def legalPattern : List KeySegment → Bool
  | [] => true
  | [_] => true
  | seg :: rest => (seg ≠ KeySegment.multiWildcard : Bool) && legalPattern rest

/-- The specified matching relation: a literal segment matches an equal key
segment, `?` matches exactly one segment, and a trailing `#` matches one or
more trailing segments. -/
def patternMatches : List KeySegment → List RegularKeySegment → Bool
  | [], [] => true
  | [], _ :: _ => false
  | _ :: _, [] => false
  | KeySegment.multiWildcard :: _, _ :: _ => true
  | KeySegment.wildcard :: ps, _ :: ks => patternMatches ps ks
  | KeySegment.literal s :: ps, k :: ks => s == k && patternMatches ps ks

/-- Build a subscriber store by a sequence of `add_subscriber` calls. -/
def buildSubscribers (entries : List (List KeySegment × Subscriber)) : Subscribers :=
  entries.foldl (fun acc e => acc.add_subscriber e.1 e.2) ⟨Node.empty⟩

end Worterbuch
namespace Worterbuch

theorem findSeg_setSeg (t : List (KeySegment × Node)) (k k' : KeySegment) (v : Node) :
    findSeg (setSeg t k v) k' = if k' = k then some v else findSeg t k' := by
  induction t with
  | nil => by_cases h : k' = k <;> simp [setSeg, findSeg, h]
  | cons hd tl ih =>
      obtain ⟨kk, n⟩ := hd
      by_cases h1 : k = kk
      · subst h1
        by_cases h2 : k' = k <;> simp [setSeg, findSeg, h2]
      · by_cases h2 : k' = kk
        · subst h2
          simp [setSeg, findSeg, h1, Ne.symm h1]
        · simp [setSeg, findSeg, h1, h2, ih]

theorem add_matches_empty (k : List RegularKeySegment) :
    add_matches Node.empty k = [] := by
  cases k <;> simp [add_matches, Node.empty, findSeg]

theorem legalPattern_tail {seg : KeySegment} {ps : List KeySegment}
    (h : legalPattern (seg :: ps) = true) : legalPattern ps = true := by
  cases ps with
  | nil => rfl
  | cons p' ps' =>
      simp only [legalPattern, Bool.and_eq_true] at h
      exact h.2

theorem legalPattern_multi {ps : List KeySegment}
    (h : legalPattern (KeySegment.multiWildcard :: ps) = true) : ps = [] := by
  cases ps with
  | nil => rfl
  | cons p' ps' => simp [legalPattern] at h

end Worterbuch
namespace Worterbuch

theorem count_addSubscriber : ∀ (p : List KeySegment), legalPattern p = true →
    ∀ (t : Node) (k : List RegularKeySegment) (s x : Subscriber),
    (add_matches (t.addSubscriber p s) k).count x =
      (add_matches t k).count x +
        (if s = x ∧ patternMatches p k = true then 1 else 0) := by
  intro p
  induction p with
  | nil =>
      intro _ t k s x
      obtain ⟨subs, tree⟩ := t
      cases k with
      | nil =>
          simp [Node.addSubscriber, add_matches, patternMatches, List.count_append,
            List.count_singleton']
      | cons e ks =>
          simp [Node.addSubscriber, add_matches, patternMatches]
  | cons seg ps ih =>
      intro hp t k s x
      obtain ⟨subs, tree⟩ := t
      have hps : legalPattern ps = true := legalPattern_tail hp
      cases k with
      | nil =>
          simp [Node.addSubscriber, add_matches, patternMatches]
      | cons e ks =>
          cases seg with
          | literal a =>
              by_cases he : e = a
              · subst he
                cases hfind : findSeg tree (KeySegment.literal e) with
                | none =>
                    simp [Node.addSubscriber, add_matches, findSeg_setSeg, hfind,
                      List.count_append, patternMatches, ih hps, add_matches_empty]
                    omega
                | some nd =>
                    simp [Node.addSubscriber, add_matches, findSeg_setSeg, hfind,
                      List.count_append, patternMatches, ih hps]
                    omega
              · simp [Node.addSubscriber, add_matches, findSeg_setSeg,
                  List.count_append, patternMatches, he]
                exact fun _ hae => absurd hae.symm he
          | wildcard =>
              cases hfind : findSeg tree KeySegment.wildcard with
              | none =>
                  simp [Node.addSubscriber, add_matches, findSeg_setSeg, hfind,
                    List.count_append, patternMatches, ih hps, add_matches_empty]
                  omega
              | some nd =>
                  simp [Node.addSubscriber, add_matches, findSeg_setSeg, hfind,
                    List.count_append, patternMatches, ih hps]
                  omega
          | multiWildcard =>
              have hnil : ps = [] := legalPattern_multi hp
              subst hnil
              cases hfind : findSeg tree KeySegment.multiWildcard with
              | none =>
                  simp [Node.addSubscriber, add_matches, findSeg_setSeg, hfind,
                    List.count_append, List.count_cons, patternMatches, add_all_children,
                    add_all_children_tree, Node.empty, List.count_singleton']
                  omega
              | some nd =>
                  obtain ⟨nsubs, ntree⟩ := nd
                  simp [Node.addSubscriber, add_matches, findSeg_setSeg, hfind,
                    List.count_append, List.count_cons, patternMatches, add_all_children,
                    List.count_singleton']
                  omega

end Worterbuch
namespace Worterbuch

theorem count_foldl_addSubscriber :
    ∀ (entries : List (List KeySegment × Subscriber)) (t : Node)
      (k : List RegularKeySegment) (x : Subscriber),
    (∀ e ∈ entries, legalPattern e.1 = true) →
    (add_matches (entries.foldl (fun acc e => acc.addSubscriber e.1 e.2) t) k).count x =
      (add_matches t k).count x +
        entries.countP (fun e => e.2 == x && patternMatches e.1 k) := by
  intro entries
  induction entries with
  | nil => intro t k x _; simp
  | cons hd tl ihe =>
      intro t k x hleg
      obtain ⟨p', s'⟩ := hd
      have h1 : legalPattern p' = true := hleg _ (List.mem_cons_self _ _)
      have h2 : ∀ e ∈ tl, legalPattern e.1 = true :=
        fun e he => hleg e (List.mem_cons_of_mem _ he)
      simp only [List.foldl_cons, List.countP_cons]
      rw [ihe _ k x h2, count_addSubscriber p' h1]
      simp only [Bool.and_eq_true, beq_iff_eq]
      by_cases hc : s' = x ∧ patternMatches p' k = true
      · simp [hc]
        omega
      · simp [hc]

theorem countP_and_of_unique {α : Type} (l : List α) (p q : α → Bool) (a : α)
    (ha : a ∈ l) (h1 : l.countP p = 1) (hpa : p a = true) :
    (l.countP fun y => p y && q y) = if q a = true then 1 else 0 := by
  induction l with
  | nil => cases ha
  | cons b t ihl =>
      rw [List.countP_cons] at h1 ⊢
      by_cases hb : p b = true
      · have ht : t.countP p = 0 := by
          rw [if_pos hb] at h1
          omega
        have hab : a = b := by
          rcases List.mem_cons.mp ha with h | h
          · exact h
          · exact absurd hpa (List.countP_eq_zero.mp ht a h)
        subst hab
        have ht2 : (t.countP fun y => p y && q y) = 0 := by
          have := List.countP_mono_left (l := t)
            (p := fun y => p y && q y) (q := p)
            (fun y _ hy => (Bool.and_elim_left hy))
          omega
        simp [ht2, hb, hpa]
      · have hb' : p b = false := Bool.eq_false_iff.mpr hb
        have h1' : t.countP p = 1 := by simp [hb'] at h1; omega
        have hat : a ∈ t := by
          rcases List.mem_cons.mp ha with h | h
          · subst h; exact absurd hpa hb
          · exact h
        rw [ihl hat h1']
        simp [hb']

theorem buildSubscribers_data (entries : List (List KeySegment × Subscriber)) :
    (buildSubscribers entries).data =
      entries.foldl (fun n e => n.addSubscriber e.1 e.2) Node.empty := by
  suffices h : ∀ (init : Subscribers),
      (entries.foldl (fun acc e => acc.add_subscriber e.1 e.2) init).data =
        entries.foldl (fun n e => n.addSubscriber e.1 e.2) init.data by
    exact h ⟨Node.empty⟩
  induction entries with
  | nil => intro init; rfl
  | cons hd tl ihe =>
      intro init
      simp only [List.foldl_cons]
      rw [ihe]
      rfl

/-- C1: for a subscriber trie built by `add_subscriber` from legal patterns
(`#` only as final segment) and a non-empty key of regular segments,
`get_subscribers` contains a subscriber exactly once when its pattern matches
the key, and not at all when it does not. -/
theorem get_subscribers_exact (entries : List (List KeySegment × Subscriber))
    (p : List KeySegment) (s : Subscriber) (k : List RegularKeySegment)
    (hleg : ∀ e ∈ entries, legalPattern e.1 = true) (hk : k ≠ [])
    (hmem : (p, s) ∈ entries)
    (huniq : entries.countP (fun e => e.2 == s) = 1) :
    ((buildSubscribers entries).get_subscribers k).count s =
      if patternMatches p k = true then 1 else 0 := by
  rw [Subscribers.get_subscribers, buildSubscribers_data,
    count_foldl_addSubscriber entries Node.empty k s hleg, add_matches_empty]
  rw [countP_and_of_unique entries (fun e => e.2 == s)
    (fun e => patternMatches e.1 k) (p, s) hmem huniq (by simp)]
  simp

/-- C1 witness: a concrete instantiation (the pattern/key pair of the
repository's `get_subscribers` unit test). -/
theorem get_subscribers_exact_witness :
    ((buildSubscribers
        [([KeySegment.literal "test", KeySegment.wildcard, KeySegment.literal "b",
            KeySegment.multiWildcard],
          ⟨[KeySegment.literal "test", KeySegment.wildcard, KeySegment.literal "b",
            KeySegment.multiWildcard], ⟨7, 123⟩, false⟩)]).get_subscribers
        ["test", "a", "b", "c", "d"]).count
      ⟨[KeySegment.literal "test", KeySegment.wildcard, KeySegment.literal "b",
        KeySegment.multiWildcard], ⟨7, 123⟩, false⟩ =
      if patternMatches
        [KeySegment.literal "test", KeySegment.wildcard, KeySegment.literal "b",
          KeySegment.multiWildcard] ["test", "a", "b", "c", "d"] = true
      then 1 else 0 :=
  get_subscribers_exact _ _ _ _ (by decide) (by decide) (by decide) (by decide)

end Worterbuch
namespace Worterbuch

theorem setSeg_find_self : ∀ (t : List (KeySegment × Node)) (k : KeySegment) (n : Node),
    findSeg t k = some n → setSeg t k n = t := by
  intro t
  induction t with
  | nil => intro k n h; simp [findSeg] at h
  | cons hd tl ih =>
      intro k n h
      obtain ⟨kk, nn⟩ := hd
      by_cases hk : k = kk
      · subst hk
        simp [findSeg] at h
        simp [setSeg, h]
      · simp [findSeg, hk] at h
        simp [setSeg, hk, ih k n h]

theorem unsubscribe_removed_iff : ∀ (p : List KeySegment) (t : Node) (i : SubscriptionId),
    (t.unsubscribe p i).2 = true ↔
      ∃ n, t.nodeAt p = some n ∧ ∃ s ∈ n.subscribers, s.id = i := by
  intro p
  induction p with
  | nil =>
      intro t i
      obtain ⟨subs, tree⟩ := t
      simp [Node.unsubscribe, Node.nodeAt, Node.subscribers, List.any_eq_true]
  | cons seg ps ih =>
      intro t i
      obtain ⟨subs, tree⟩ := t
      cases hfind : findSeg tree seg with
      | none => simp [Node.unsubscribe, Node.nodeAt, hfind]
      | some child => simp [Node.unsubscribe, Node.nodeAt, hfind, ih child i]

theorem unsubscribe_at_pattern : ∀ (p : List KeySegment) (t : Node) (i : SubscriptionId),
    ((t.unsubscribe p i).1.nodeAt p).map Node.subscribers =
      (t.nodeAt p).map (fun n => n.subscribers.filter (fun s => s.id ≠ i)) := by
  intro p
  induction p with
  | nil =>
      intro t i
      obtain ⟨subs, tree⟩ := t
      simp [Node.unsubscribe, Node.nodeAt, Node.subscribers]
  | cons seg ps ih =>
      intro t i
      obtain ⟨subs, tree⟩ := t
      cases hfind : findSeg tree seg with
      | none => simp [Node.unsubscribe, Node.nodeAt, hfind]
      | some child =>
          simp only [Node.unsubscribe, hfind, Node.nodeAt, findSeg_setSeg, if_pos]
          exact ih child i

theorem unsubscribe_frame : ∀ (p : List KeySegment) (t : Node) (i : SubscriptionId)
    (q : List KeySegment), q ≠ p →
    ((t.unsubscribe p i).1.nodeAt q).map Node.subscribers =
      (t.nodeAt q).map Node.subscribers := by
  intro p
  induction p with
  | nil =>
      intro t i q hq
      obtain ⟨subs, tree⟩ := t
      cases q with
      | nil => exact absurd rfl hq
      | cons a qs => simp [Node.unsubscribe, Node.nodeAt]
  | cons seg ps ih =>
      intro t i q hq
      obtain ⟨subs, tree⟩ := t
      cases hfind : findSeg tree seg with
      | none => simp [Node.unsubscribe, hfind]
      | some child =>
          cases q with
          | nil => simp [Node.unsubscribe, hfind, Node.nodeAt, Node.subscribers]
          | cons a qs =>
              by_cases ha : a = seg
              · subst ha
                have hqs : qs ≠ ps := fun h => hq (by rw [h])
                simp only [Node.unsubscribe, hfind, Node.nodeAt, findSeg_setSeg, if_pos]
                exact ih child i qs hqs
              · simp only [Node.unsubscribe, hfind, Node.nodeAt, findSeg_setSeg, if_neg ha]

theorem unsubscribe_missing : ∀ (p : List KeySegment) (t : Node) (i : SubscriptionId),
    t.nodeAt p = none → (t.unsubscribe p i).1 = t ∧ (t.unsubscribe p i).2 = false := by
  intro p
  induction p with
  | nil => intro t i h; simp [Node.nodeAt] at h
  | cons seg ps ih =>
      intro t i h
      obtain ⟨subs, tree⟩ := t
      cases hfind : findSeg tree seg with
      | none => simp [Node.unsubscribe, hfind]
      | some child =>
          simp only [Node.nodeAt, hfind] at h
          obtain ⟨h1, h2⟩ := ih child i h
          simp [Node.unsubscribe, hfind, h1, h2, setSeg_find_self tree seg child hfind]

end Worterbuch
namespace Worterbuch

/-- C9: `Subscribers::unsubscribe(p, i)` removes exactly the subscribers with
id `i` at the node addressed by `p`, returns `true` iff at least one such
subscriber was removed, leaves every other node's subscriber list unchanged,
and when no node path for `p` exists it returns `false` and leaves the trie
unchanged. -/
theorem unsubscribe_targeted_atomic (sub : Subscribers) (p : List KeySegment)
    (i : SubscriptionId) :
    ((sub.unsubscribe p i).2 = true ↔
      ∃ n, sub.data.nodeAt p = some n ∧ ∃ s ∈ n.subscribers, s.id = i)
    ∧ (((sub.unsubscribe p i).1.data.nodeAt p).map Node.subscribers =
        (sub.data.nodeAt p).map (fun n => n.subscribers.filter (fun s => s.id ≠ i)))
    ∧ (∀ q, q ≠ p →
        ((sub.unsubscribe p i).1.data.nodeAt q).map Node.subscribers =
          (sub.data.nodeAt q).map Node.subscribers)
    ∧ (sub.data.nodeAt p = none →
        (sub.unsubscribe p i).1.data = sub.data ∧ (sub.unsubscribe p i).2 = false) :=
  ⟨unsubscribe_removed_iff p sub.data i,
   unsubscribe_at_pattern p sub.data i,
   fun q hq => unsubscribe_frame p sub.data i q hq,
   fun h => unsubscribe_missing p sub.data i h⟩

/-- C9 witness: concrete instantiation on the unit test's one-subscriber trie. -/
theorem unsubscribe_targeted_atomic_witness :
    let P : List KeySegment := [KeySegment.literal "test", KeySegment.wildcard,
      KeySegment.literal "b", KeySegment.multiWildcard]
    let S : Subscribers := buildSubscribers [(P, ⟨P, ⟨7, 123⟩, false⟩)]
    ((S.unsubscribe P ⟨7, 123⟩).2 = true ↔
      ∃ n, S.data.nodeAt P = some n ∧ ∃ s ∈ n.subscribers, s.id = ⟨7, 123⟩)
    ∧ (((S.unsubscribe P ⟨7, 123⟩).1.data.nodeAt P).map Node.subscribers =
        (S.data.nodeAt P).map (fun n => n.subscribers.filter (fun s => s.id ≠ (⟨7, 123⟩ : SubscriptionId))))
    ∧ (∀ q, q ≠ P →
        ((S.unsubscribe P ⟨7, 123⟩).1.data.nodeAt q).map Node.subscribers =
          (S.data.nodeAt q).map Node.subscribers)
    ∧ (S.data.nodeAt P = none →
        (S.unsubscribe P ⟨7, 123⟩).1.data = S.data ∧ (S.unsubscribe P ⟨7, 123⟩).2 = false) :=
  unsubscribe_targeted_atomic _ _ _

end Worterbuch

namespace Worterbuch.Js

/-! ## JSON framing of server messages (`worterbuch-common/src/server.rs`)

The serde-derived (de)serialization is modelled on JSON trees: `encode…`
mirrors `Serialize` (externally tagged camelCase enums, `#[serde(flatten)]`
on the event field of `State`/`PState`), `decode…` mirrors `Deserialize`
(field lookup in a map; a flattened enum consumes the fields left over by the
named fields and requires a single recognized tag). Numbers carried by the
messages (`u64`/`u8`/`u16`) are modelled as `Nat`. -/

/-- A JSON document (`serde_json::Value`); objects are field lists in
serialization order. -/
inductive Json where
  | null
  | bool (b : Bool)
  | num (n : Int)
  | str (s : String)
  | arr (elems : List Json)
  | obj (fields : List (String × Json))

abbrev TransactionId := Nat
abbrev ErrorCode := Nat
abbrev Key := String
abbrev RequestPattern := String
abbrev MetaData := String
abbrev Value := Json

/-- Rust `KeyValuePair { key, value }`. -/
structure KeyValuePair where
  key : Key
  value : Value

/-- Rust `PStateEvent`: `KeyValuePairs(KeyValuePairs)` or `Deleted(Keys)`. -/
inductive PStateEvent where
  | keyValuePairs (kvps : List KeyValuePair)
  | deleted (keys : List Key)

/-- Rust `PState` with `#[serde(flatten)] event`. -/
structure PState where
  transaction_id : TransactionId
  request_pattern : RequestPattern
  event : PStateEvent

/-- Rust `Ack`. -/
structure Ack where
  transaction_id : TransactionId

/-- Rust `StateEvent`: `KeyValue(KeyValuePair)` or `Deleted(Key)`. -/
inductive StateEvent where
  | keyValue (kvp : KeyValuePair)
  | deleted (key : Key)

/-- Rust `State` with `#[serde(flatten)] event`. -/
structure State where
  transaction_id : TransactionId
  event : StateEvent

/-- Rust `Err`. -/
structure Err where
  transaction_id : TransactionId
  error_code : ErrorCode
  metadata : MetaData

/-- Rust `ProtocolVersion { major, minor }`. -/
structure ProtocolVersion where
  major : Nat
  minor : Nat

/-- Rust `Handshake`. -/
structure Handshake where
  protocol_version : ProtocolVersion
  separator : Char
  wildcard : Char
  multi_wildcard : Char

/-- Rust `ServerMessage` (externally tagged, camelCase). -/
inductive ServerMessage where
  | pState (m : PState)
  | ack (m : Ack)
  | state (m : State)
  | err (m : Err)
  | handshake (m : Handshake)

/-- Serialize a `KeyValuePair` (field order `key`, `value`). -/
def encodeKeyValuePair (kvp : KeyValuePair) : Json :=
  .obj [("key", .str kvp.key), ("value", kvp.value)]

/-- Serialize a `PStateEvent` to the field list its external tag contributes. -/
def encodePStateEvent : PStateEvent → List (String × Json)
  | .keyValuePairs kvps => [("keyValuePairs", .arr (kvps.map encodeKeyValuePair))]
  | .deleted keys => [("deleted", .arr (keys.map Json.str))]

/-- Serialize `PState`: named fields first, then the flattened event. -/
def encodePState (m : PState) : Json :=
  .obj ([("transactionId", .num m.transaction_id),
         ("requestPattern", .str m.request_pattern)] ++ encodePStateEvent m.event)

/-- Serialize `Ack`. -/
def encodeAck (m : Ack) : Json :=
  .obj [("transactionId", .num m.transaction_id)]

/-- Serialize a `StateEvent` to the field list its external tag contributes. -/
def encodeStateEvent : StateEvent → List (String × Json)
  | .keyValue kvp => [("keyValue", encodeKeyValuePair kvp)]
  | .deleted key => [("deleted", .str key)]

/-- Serialize `State`: named field first, then the flattened event. -/
def encodeState (m : State) : Json :=
  .obj ([("transactionId", .num m.transaction_id)] ++ encodeStateEvent m.event)

/-- Serialize `Err`. -/
def encodeErr (m : Err) : Json :=
  .obj [("transactionId", .num m.transaction_id),
        ("errorCode", .num m.error_code),
        ("metadata", .str m.metadata)]

/-- A Rust `char` serializes as a one-character JSON string. -/
def encodeChar (c : Char) : Json := .str (String.mk [c])

/-- Serialize `ProtocolVersion`. -/
def encodeProtocolVersion (v : ProtocolVersion) : Json :=
  .obj [("major", .num v.major), ("minor", .num v.minor)]

/-- Serialize `Handshake`. -/
def encodeHandshake (m : Handshake) : Json :=
  .obj [("protocolVersion", encodeProtocolVersion m.protocol_version),
        ("separator", encodeChar m.separator),
        ("wildcard", encodeChar m.wildcard),
        ("multiWildcard", encodeChar m.multi_wildcard)]

/-- Serialize `ServerMessage` (externally tagged union). -/
def encodeServerMessage : ServerMessage → Json
  | .pState m => .obj [("pState", encodePState m)]
  | .ack m => .obj [("ack", encodeAck m)]
  | .state m => .obj [("state", encodeState m)]
  | .err m => .obj [("err", encodeErr m)]
  | .handshake m => .obj [("handshake", encodeHandshake m)]

/-- Expect a JSON string. -/
def Json.asStr : Json → Option String
  | .str s => some s
  | _ => none

/-- Expect a non-negative JSON integer (an unsigned Rust integer). -/
def Json.asNat : Json → Option Nat
  | .num (Int.ofNat n) => some n
  | _ => none

/-- Expect a one-character JSON string (a Rust `char`). -/
def Json.asChar : Json → Option Char
  | .str s =>
      match s.toList with
      | [c] => some c
      | _ => none
  | _ => none

/-- Expect a JSON object. -/
def Json.asObj : Json → Option (List (String × Json))
  | .obj fields => some fields
  | _ => none

/-- First binding of a field name in a JSON object. -/
def getField : List (String × Json) → String → Option Json
  | [], _ => none
  | (k, v) :: rest, name => if k = name then some v else getField rest name

/-- The fields left over after the named fields are consumed (what
`#[serde(flatten)]` hands to the flattened deserializer). -/
def removeFields (fields : List (String × Json)) (names : List String) :
    List (String × Json) :=
  fields.filter (fun f => !(names.contains f.1))

/-- Deserialize every element of a JSON array (serde `SeqAccess` loop). -/
def decodeList {α : Type} (f : Json → Option α) : List Json → Option (List α)
  | [] => some []
  | x :: xs => do
      let a ← f x
      let rest ← decodeList f xs
      pure (a :: rest)

/-- Deserialize a `KeyValuePair`. -/
def decodeKeyValuePair (j : Json) : Option KeyValuePair := do
  let fields ← j.asObj
  let kj ← getField fields "key"
  let key ← kj.asStr
  let value ← getField fields "value"
  pure ⟨key, value⟩

/-- Deserialize a flattened `PStateEvent`: exactly one recognized tag. -/
def decodePStateEvent : List (String × Json) → Option PStateEvent
  | [("keyValuePairs", Json.arr xs)] =>
      (decodeList decodeKeyValuePair xs).map PStateEvent.keyValuePairs
  | [("deleted", Json.arr xs)] =>
      (decodeList Json.asStr xs).map PStateEvent.deleted
  | _ => none

/-- Deserialize `PState`. -/
def decodePState (j : Json) : Option PState := do
  let fields ← j.asObj
  let tj ← getField fields "transactionId"
  let tid ← tj.asNat
  let rj ← getField fields "requestPattern"
  let rp ← rj.asStr
  let ev ← decodePStateEvent (removeFields fields ["transactionId", "requestPattern"])
  pure ⟨tid, rp, ev⟩

/-- Deserialize `Ack`. -/
def decodeAck (j : Json) : Option Ack := do
  let fields ← j.asObj
  let tj ← getField fields "transactionId"
  let tid ← tj.asNat
  pure ⟨tid⟩

/-- Deserialize a flattened `StateEvent`: exactly one recognized tag. -/
def decodeStateEvent : List (String × Json) → Option StateEvent
  | [("keyValue", v)] => (decodeKeyValuePair v).map StateEvent.keyValue
  | [("deleted", v)] => (v.asStr).map StateEvent.deleted
  | _ => none

/-- Deserialize `State`. -/
def decodeState (j : Json) : Option State := do
  let fields ← j.asObj
  let tj ← getField fields "transactionId"
  let tid ← tj.asNat
  let ev ← decodeStateEvent (removeFields fields ["transactionId"])
  pure ⟨tid, ev⟩

/-- Deserialize `Err`. -/
def decodeErr (j : Json) : Option Err := do
  let fields ← j.asObj
  let tj ← getField fields "transactionId"
  let tid ← tj.asNat
  let cj ← getField fields "errorCode"
  let code ← cj.asNat
  let mj ← getField fields "metadata"
  let meta ← mj.asStr
  pure ⟨tid, code, meta⟩

/-- Deserialize `ProtocolVersion`. -/
def decodeProtocolVersion (j : Json) : Option ProtocolVersion := do
  let fields ← j.asObj
  let mj ← getField fields "major"
  let major ← mj.asNat
  let nj ← getField fields "minor"
  let minor ← nj.asNat
  pure ⟨major, minor⟩

/-- Deserialize `Handshake`. -/
def decodeHandshake (j : Json) : Option Handshake := do
  let fields ← j.asObj
  let pj ← getField fields "protocolVersion"
  let pv ← decodeProtocolVersion pj
  let sj ← getField fields "separator"
  let sep ← sj.asChar
  let wj ← getField fields "wildcard"
  let wc ← wj.asChar
  let mj ← getField fields "multiWildcard"
  let mw ← mj.asChar
  pure ⟨pv, sep, wc, mw⟩

/-- Deserialize `ServerMessage` (externally tagged union: one variant key). -/
def decodeServerMessage : Json → Option ServerMessage
  | Json.obj [("pState", v)] => (decodePState v).map ServerMessage.pState
  | Json.obj [("ack", v)] => (decodeAck v).map ServerMessage.ack
  | Json.obj [("state", v)] => (decodeState v).map ServerMessage.state
  | Json.obj [("err", v)] => (decodeErr v).map ServerMessage.err
  | Json.obj [("handshake", v)] => (decodeHandshake v).map ServerMessage.handshake
  | _ => none

end Worterbuch.Js

namespace Worterbuch.Js

theorem decodeKeyValuePair_encode (kvp : KeyValuePair) :
    decodeKeyValuePair (encodeKeyValuePair kvp) = some kvp := by
  cases kvp
  rfl

theorem decodeList_encodeKeyValuePair (l : List KeyValuePair) :
    decodeList decodeKeyValuePair (l.map encodeKeyValuePair) = some l := by
  induction l with
  | nil => rfl
  | cons hd tl ih => simp [decodeList, decodeKeyValuePair_encode, ih]

theorem decodeList_asStr (l : List String) :
    decodeList Json.asStr (l.map Json.str) = some l := by
  induction l with
  | nil => rfl
  | cons hd tl ih => simp [decodeList, Json.asStr, ih]

/-- C3: JSON round trip — deserializing the serialization of any server
message (PState, Ack, State, Err, Handshake, including the flattened
`keyValue`/`keyValuePairs`/`deleted` event payloads) yields the message
back. -/
theorem decode_encode_server_message (m : ServerMessage) :
    decodeServerMessage (encodeServerMessage m) = some m := by
  cases m with
  | pState p =>
      obtain ⟨tid, rp, ev⟩ := p
      cases ev with
      | keyValuePairs kvps =>
          simp [encodeServerMessage, encodePState, encodePStateEvent, decodeServerMessage,
            decodePState, Json.asObj, getField, Json.asNat, Json.asStr, removeFields,
            decodePStateEvent, decodeList_encodeKeyValuePair]
      | deleted keys =>
          simp [encodeServerMessage, encodePState, encodePStateEvent, decodeServerMessage,
            decodePState, Json.asObj, getField, Json.asNat, Json.asStr, removeFields,
            decodePStateEvent, decodeList_asStr]
  | ack a =>
      obtain ⟨tid⟩ := a
      rfl
  | state s =>
      obtain ⟨tid, ev⟩ := s
      cases ev with
      | keyValue kvp =>
          simp [encodeServerMessage, encodeState, encodeStateEvent, decodeServerMessage,
            decodeState, Json.asObj, getField, Json.asNat, removeFields,
            decodeStateEvent, decodeKeyValuePair_encode]
      | deleted key =>
          simp [encodeServerMessage, encodeState, encodeStateEvent, decodeServerMessage,
            decodeState, Json.asObj, getField, Json.asNat, Json.asStr, removeFields,
            decodeStateEvent]
  | err e =>
      obtain ⟨tid, code, meta⟩ := e
      rfl
  | handshake h =>
      obtain ⟨⟨major, minor⟩, sep, wc, mw⟩ := h
      simp [encodeServerMessage, encodeHandshake, encodeProtocolVersion, encodeChar,
        decodeServerMessage, decodeHandshake, decodeProtocolVersion, Json.asObj,
        getField, Json.asNat, Json.asChar]

end Worterbuch.Js

namespace Worterbuch.Codec

/-! ## Binary codec (`worterbuch-codec/src/lib.rs`)

Strings are modelled by their UTF-8 byte sequences (`List Nat`), frames by
byte lists; `u64::to_be_bytes` and friends by `beBytes`. The imperative
buffer-push encoders are modelled as concatenations in push order; the `?`
operator on the length guards as explicit `match`es. -/

/-- Big-endian byte encoding of `n` in `w` bytes (Rust `to_be_bytes`). -/
def beBytes : Nat → Nat → List Nat
  | 0, _ => []
  | w + 1, n => beBytes w (n / 256) ++ [n % 256]

abbrev Bytes := List Nat

/-- Message type `PSTA = 0b10000000`. -/
def PSTA : Nat := 0b10000000
/-- Message type `SET = 0b00000001`. -/
def SET : Nat := 0b00000001
/-- Message type `PGET = 0b00000011`. -/
def PGET : Nat := 0b00000011
/-- Message type `ERR = 0b10000011`. -/
def ERR : Nat := 0b10000011

/-- Rust `EncodeError` (from `worterbuch-codec`'s error module; the variants
and their `usize` payloads are exactly those constructed in `lib.rs`). -/
inductive EncodeError where
  | RequestPatternTooLong (length : Nat)
  | KeyTooLong (length : Nat)
  | ValueTooLong (length : Nat)
  | TooManyKeyValuePairs (length : Nat)
  | MetaDataTooLong (length : Nat)
  | PathTooLong (length : Nat)
deriving DecidableEq, Repr

/-- Rust `EncodeResult<T>`. -/
abbrev EncodeResult (α : Type) := Except EncodeError α

/-- Rust `KeyValuePair` of the codec crate (`Key = String`, `Value = String`). -/
structure KeyValuePair where
  key : Bytes
  value : Bytes
deriving DecidableEq, Repr

/-- Rust `Set`. -/
structure Set where
  transaction_id : Nat
  key : Bytes
  value : Bytes
deriving DecidableEq, Repr

/-- Rust `PGet`. -/
structure PGet where
  transaction_id : Nat
  request_pattern : Bytes
deriving DecidableEq, Repr

/-- Rust `PState` of the codec crate. -/
structure PState where
  transaction_id : Nat
  request_pattern : Bytes
  key_value_pairs : List KeyValuePair
deriving DecidableEq, Repr

/-- Rust `Err`. -/
structure Err where
  transaction_id : Nat
  error_code : Nat
  metadata : Bytes
deriving DecidableEq, Repr

/-- `get_request_pattern_length`: pattern byte length as `u16` or error. -/
def get_request_pattern_length (s : Bytes) : EncodeResult Nat :=
  if s.length > 65535 then .error (.RequestPatternTooLong s.length) else .ok s.length

/-- `get_key_length`: key byte length as `u16` or error. -/
def get_key_length (s : Bytes) : EncodeResult Nat :=
  if s.length > 65535 then .error (.KeyTooLong s.length) else .ok s.length

/-- `get_value_length`: value byte length as `u32` or error. -/
def get_value_length (s : Bytes) : EncodeResult Nat :=
  if s.length > 4294967295 then .error (.ValueTooLong s.length) else .ok s.length

/-- `get_num_key_val_pairs`: pair count as `u32` or error. -/
def get_num_key_val_pairs (pairs : List KeyValuePair) : EncodeResult Nat :=
  if pairs.length > 4294967295 then .error (.TooManyKeyValuePairs pairs.length)
  else .ok pairs.length

/-- `get_metadata_length`: metadata byte length as `u32` or error. -/
def get_metadata_length (s : Bytes) : EncodeResult Nat :=
  if s.length > 4294967295 then .error (.MetaDataTooLong s.length) else .ok s.length

/-- `encode_set_message`: `SET` tag, tid(8), key_len(2), value_len(4), key,
value. -/
def encode_set_message (msg : Set) : EncodeResult Bytes :=
  match get_key_length msg.key with
  | .error e => .error e
  | .ok key_length =>
    match get_value_length msg.value with
    | .error e => .error e
    | .ok value_length =>
        .ok ([SET] ++ beBytes 8 msg.transaction_id ++ beBytes 2 key_length ++
          beBytes 4 value_length ++ msg.key ++ msg.value)

/-- `encode_pget_message`: `PGET` tag, tid(8), pattern_len(2), pattern. -/
def encode_pget_message (msg : PGet) : EncodeResult Bytes :=
  match get_request_pattern_length msg.request_pattern with
  | .error e => .error e
  | .ok request_pattern_length =>
      .ok ([PGET] ++ beBytes 8 msg.transaction_id ++ beBytes 2 request_pattern_length ++
        msg.request_pattern)

/-- `encode_err_message`: `ERR` tag, tid(8), error_code(1), metadata_len(4),
metadata. -/
def encode_err_message (msg : Err) : EncodeResult Bytes :=
  match get_metadata_length msg.metadata with
  | .error e => .error e
  | .ok metadata_length =>
      .ok ([ERR] ++ beBytes 8 msg.transaction_id ++ [msg.error_code] ++
        beBytes 4 metadata_length ++ msg.metadata)

/-- The first loop of `encode_pstate_message`: per pair, key_len(2) then
value_len(4). -/
def encode_pstate_headers : List KeyValuePair → EncodeResult Bytes
  | [] => .ok []
  | kvp :: rest =>
    match get_key_length kvp.key with
    | .error e => .error e
    | .ok key_length =>
      match get_value_length kvp.value with
      | .error e => .error e
      | .ok value_length =>
        match encode_pstate_headers rest with
        | .error e => .error e
        | .ok tail => .ok (beBytes 2 key_length ++ beBytes 4 value_length ++ tail)

/-- `encode_pstate_message`: `PSTA` tag, tid(8), pattern_len(2), num_pairs(4),
per-pair length headers, pattern bytes, per-pair key and value bytes. -/
def encode_pstate_message (msg : PState) : EncodeResult Bytes :=
  match get_request_pattern_length msg.request_pattern with
  | .error e => .error e
  | .ok request_pattern_length =>
    match get_num_key_val_pairs msg.key_value_pairs with
    | .error e => .error e
    | .ok num_key_val_pairs =>
      match encode_pstate_headers msg.key_value_pairs with
      | .error e => .error e
      | .ok headers =>
          .ok ([PSTA] ++ beBytes 8 msg.transaction_id ++
            beBytes 2 request_pattern_length ++ beBytes 4 num_key_val_pairs ++
            headers ++ msg.request_pattern ++
            (msg.key_value_pairs.map (fun kvp => kvp.key ++ kvp.value)).flatten)

end Worterbuch.Codec

namespace Worterbuch.Codec

theorem encode_pstate_headers_ok (kvps : List KeyValuePair)
    (h : ∀ kvp ∈ kvps, kvp.key.length ≤ 65535 ∧ kvp.value.length ≤ 4294967295) :
    encode_pstate_headers kvps =
      .ok ((kvps.map
        (fun kvp => beBytes 2 kvp.key.length ++ beBytes 4 kvp.value.length)).flatten) := by
  induction kvps with
  | nil => rfl
  | cons hd tl ih =>
      obtain ⟨hk, hv⟩ := h hd (List.mem_cons_self _ _)
      have ht := ih (fun kvp hm => h kvp (List.mem_cons_of_mem _ hm))
      simp [encode_pstate_headers, get_key_length, get_value_length,
        Nat.not_lt.mpr hk, Nat.not_lt.mpr hv, ht]

/-- C5: for every `PState` whose pattern, keys, values and pair count fit
their length fields, `encode_pstate_message` produces exactly the `PSTA` byte,
the 8-byte big-endian transaction id, the 2-byte big-endian pattern length,
the 4-byte big-endian pair count, per pair its 2-byte key length and 4-byte
value length, the pattern bytes, and per pair its key bytes then value
bytes. -/
theorem encode_pstate_message_layout (msg : PState)
    (hp : msg.request_pattern.length ≤ 65535)
    (hn : msg.key_value_pairs.length ≤ 4294967295)
    (hkv : ∀ kvp ∈ msg.key_value_pairs,
      kvp.key.length ≤ 65535 ∧ kvp.value.length ≤ 4294967295) :
    encode_pstate_message msg =
      .ok ([PSTA] ++ beBytes 8 msg.transaction_id ++
        beBytes 2 msg.request_pattern.length ++
        beBytes 4 msg.key_value_pairs.length ++
        (msg.key_value_pairs.map
          (fun kvp => beBytes 2 kvp.key.length ++ beBytes 4 kvp.value.length)).flatten ++
        msg.request_pattern ++
        (msg.key_value_pairs.map (fun kvp => kvp.key ++ kvp.value)).flatten) := by
  simp [encode_pstate_message, get_request_pattern_length, get_num_key_val_pairs,
    Nat.not_lt.mpr hp, Nat.not_lt.mpr hn, encode_pstate_headers_ok _ hkv]

/-- C5 witness: the layout theorem applied to a concrete two-pair message. -/
theorem encode_pstate_message_layout_witness :
    encode_pstate_message ⟨4, [97], [⟨[98], [99]⟩, ⟨[100], [101, 102]⟩]⟩ =
      .ok ([PSTA] ++ beBytes 8 4 ++ beBytes 2 1 ++ beBytes 4 2 ++
        ((([⟨[98], [99]⟩, ⟨[100], [101, 102]⟩] : List KeyValuePair).map
          (fun kvp => beBytes 2 kvp.key.length ++ beBytes 4 kvp.value.length)).flatten) ++
        [97] ++
        ((([⟨[98], [99]⟩, ⟨[100], [101, 102]⟩] : List KeyValuePair).map
          (fun kvp => kvp.key ++ kvp.value)).flatten)) :=
  encode_pstate_message_layout _ (by decide) (by decide) (by decide)

/-- C6: `encode_set_message` succeeds iff the key fits `u16` and the value
fits `u32` byte lengths, returning `KeyTooLong`/`ValueTooLong` otherwise;
request patterns (`encode_pget_message`) are limited to `u16` and metadata
(`encode_err_message`) to `u32` byte lengths analogously. -/
theorem encode_length_limits (tid code : Nat) (key value pattern metadata : Bytes) :
    ((∃ buf, encode_set_message ⟨tid, key, value⟩ = .ok buf) ↔
      key.length ≤ 65535 ∧ value.length ≤ 4294967295)
    ∧ (key.length > 65535 →
        encode_set_message ⟨tid, key, value⟩ = .error (.KeyTooLong key.length))
    ∧ (key.length ≤ 65535 → value.length > 4294967295 →
        encode_set_message ⟨tid, key, value⟩ = .error (.ValueTooLong value.length))
    ∧ ((∃ buf, encode_pget_message ⟨tid, pattern⟩ = .ok buf) ↔ pattern.length ≤ 65535)
    ∧ (pattern.length > 65535 →
        encode_pget_message ⟨tid, pattern⟩ = .error (.RequestPatternTooLong pattern.length))
    ∧ ((∃ buf, encode_err_message ⟨tid, code, metadata⟩ = .ok buf) ↔
        metadata.length ≤ 4294967295)
    ∧ (metadata.length > 4294967295 →
        encode_err_message ⟨tid, code, metadata⟩ = .error (.MetaDataTooLong metadata.length)) := by
  refine ⟨?_, ?_, ?_, ?_, ?_, ?_, ?_⟩
  · constructor
    · rintro ⟨buf, hbuf⟩
      by_cases hk : key.length > 65535
      · simp [encode_set_message, get_key_length, hk] at hbuf
      · by_cases hv : value.length > 4294967295
        · simp [encode_set_message, get_key_length, get_value_length, hk, hv] at hbuf
        · exact ⟨Nat.not_lt.mp hk, Nat.not_lt.mp hv⟩
    · rintro ⟨hk, hv⟩
      have hok : encode_set_message ⟨tid, key, value⟩ =
          .ok ([SET] ++ beBytes 8 tid ++ beBytes 2 key.length ++
            beBytes 4 value.length ++ key ++ value) := by
        simp [encode_set_message, get_key_length, get_value_length,
          Nat.not_lt.mpr hk, Nat.not_lt.mpr hv]
      exact ⟨_, hok⟩
  · intro hk
    simp [encode_set_message, get_key_length, hk]
  · intro hk hv
    simp [encode_set_message, get_key_length, get_value_length, Nat.not_lt.mpr hk, hv]
  · constructor
    · rintro ⟨buf, hbuf⟩
      by_cases hp : pattern.length > 65535
      · simp [encode_pget_message, get_request_pattern_length, hp] at hbuf
      · exact Nat.not_lt.mp hp
    · intro hp
      have hok : encode_pget_message ⟨tid, pattern⟩ =
          .ok ([PGET] ++ beBytes 8 tid ++ beBytes 2 pattern.length ++ pattern) := by
        simp [encode_pget_message, get_request_pattern_length, Nat.not_lt.mpr hp]
      exact ⟨_, hok⟩
  · intro hp
    simp [encode_pget_message, get_request_pattern_length, hp]
  · constructor
    · rintro ⟨buf, hbuf⟩
      by_cases hm : metadata.length > 4294967295
      · simp [encode_err_message, get_metadata_length, hm] at hbuf
      · exact Nat.not_lt.mp hm
    · intro hm
      have hok : encode_err_message ⟨tid, code, metadata⟩ =
          .ok ([ERR] ++ beBytes 8 tid ++ [code] ++ beBytes 4 metadata.length ++ metadata) := by
        simp [encode_err_message, get_metadata_length, Nat.not_lt.mpr hm]
      exact ⟨_, hok⟩
  · intro hm
    simp [encode_err_message, get_metadata_length, hm]

/-- C6 witness: instantiation at a concrete in-range message. -/
theorem encode_length_limits_witness :
    ((∃ buf, encode_set_message ⟨0, [107], [118]⟩ = .ok buf) ↔
      ([107] : Bytes).length ≤ 65535 ∧ ([118] : Bytes).length ≤ 4294967295)
    ∧ (([107] : Bytes).length > 65535 →
        encode_set_message ⟨0, [107], [118]⟩ = .error (.KeyTooLong ([107] : Bytes).length))
    ∧ (([107] : Bytes).length ≤ 65535 → ([118] : Bytes).length > 4294967295 →
        encode_set_message ⟨0, [107], [118]⟩ = .error (.ValueTooLong ([118] : Bytes).length))
    ∧ ((∃ buf, encode_pget_message ⟨0, [112]⟩ = .ok buf) ↔ ([112] : Bytes).length ≤ 65535)
    ∧ (([112] : Bytes).length > 65535 →
        encode_pget_message ⟨0, [112]⟩ = .error (.RequestPatternTooLong ([112] : Bytes).length))
    ∧ ((∃ buf, encode_err_message ⟨0, 5, [109]⟩ = .ok buf) ↔
        ([109] : Bytes).length ≤ 4294967295)
    ∧ (([109] : Bytes).length > 4294967295 →
        encode_err_message ⟨0, 5, [109]⟩ = .error (.MetaDataTooLong ([109] : Bytes).length)) :=
  encode_length_limits 0 5 [107] [118] [112] [109]

end Worterbuch.Codec

namespace Worterbuch.Ka

/-! ## WebSocket session keepalive (`worterbuch/src/server/poem/websocket.rs`)

`Instant`s are modelled as `Nat` time stamps; Rust `Instant` subtraction
saturates at zero, as does `Nat` subtraction. The 2-second inactivity branch
of `check_client_keepalive` only logs a warning and is not modelled. -/

/-- `check_client_keepalive`: computes
`lag = last_keepalive_tx - last_keepalive_rx` and returns an error — closing
the session — iff `lag >= keepalive_timeout`. `true` means "close". -/
def check_client_keepalive (last_keepalive_rx last_keepalive_tx keepalive_timeout : Nat) :
    Bool :=
  keepalive_timeout ≤ last_keepalive_tx - last_keepalive_rx

/-- The keepalive-relevant state of `serve_loop`: the last receive and last
completed-send time stamps and whether the loop has been left. Both stamps
start at connection time (taken as 0). -/
structure KaState where
  lastRx : Nat
  lastTx : Nat
  closed : Bool
deriving DecidableEq, Repr

/-- One `select!` arm of `serve_loop`:
`recv now` = a websocket message arrived (`last_keepalive_rx = Instant::now()`),
`txDone now` = the send loop reported a completed write over
`keepalive_tx_rx` (`last_keepalive_tx = keepalive?`),
`tick now` = `keepalive_timer.tick()` fired at wall-clock time `now` (the
tick handler itself never reads the clock: `check_client_keepalive` only sees
the two stored stamps; `send_keepalive` then requests a Keepalive frame when
`now − last_tx ≥ 1`, whose completion surfaces later as `txDone`). -/
inductive KaEvent where
  | recv (now : Nat)
  | txDone (now : Nat)
  | tick (now : Nat)
deriving DecidableEq, Repr

/-- One step of `serve_loop`'s `select!`. -/
def kaStep (keepalive_timeout : Nat) (s : KaState) (e : KaEvent) : KaState :=
  if s.closed then s
  else
    match e with
    | .recv now => { s with lastRx := now }
    | .txDone now => { s with lastTx := now }
    | .tick _ =>
        if check_client_keepalive s.lastRx s.lastTx keepalive_timeout then
          { s with closed := true }
        else s

/-- Run `serve_loop` over an event trace from a fresh connection. -/
def kaRun (keepalive_timeout : Nat) (events : List KaEvent) : KaState :=
  events.foldl (kaStep keepalive_timeout) ⟨0, 0, false⟩

/-- C2 counterexample: the claim "with no client activity the session is
closed on any 1 Hz tick at which `now − last_rx ≥ keepalive_timeout`" is
false. With `keepalive_timeout = 5` and the realizable trace
tick 1, send done 1, …, tick 4, send done 4 (each Keepalive is due since
`now − last_tx = 1`), the tick at `now = 5` satisfies
`now − last_rx = 5 ≥ 5` yet leaves the session open, because the code
compares `last_tx − last_rx = 4` — not `now − last_rx` — against the
timeout. -/
theorem keepalive_close_claim_refuted :
    ¬ (∀ (keepalive_timeout : Nat) (events : List KaEvent) (now : Nat),
        (∀ t, KaEvent.recv t ∉ events) →
        keepalive_timeout ≤ now - (kaRun keepalive_timeout events).lastRx →
        (kaRun keepalive_timeout (events ++ [KaEvent.tick now])).closed = true) := by
  intro h
  have hc := h 5
    [.tick 1, .txDone 1, .tick 2, .txDone 2, .tick 3, .txDone 3, .tick 4, .txDone 4] 5
    (by intro t ht; simp at ht) (by decide)
  exact absurd hc (by decide)

/-- C2 amended: on each 1 Hz tick the session is closed iff
`last_tx − last_rx ≥ keepalive_timeout` (saturating subtraction), where
`last_tx` is the completion time of the server's last successful send. Since
`last_tx ≤ now`, a close still implies `now − last_rx ≥ keepalive_timeout`;
the converse fails (see the counterexample), so the close can happen on a
later tick than the claim states. -/
theorem keepalive_tick_close (keepalive_timeout : Nat) (s : KaState) (now : Nat)
    (hopen : s.closed = false) :
    ((kaStep keepalive_timeout s (.tick now)).closed = true ↔
      keepalive_timeout ≤ s.lastTx - s.lastRx)
    ∧ (s.lastTx ≤ now → (kaStep keepalive_timeout s (.tick now)).closed = true →
        keepalive_timeout ≤ now - s.lastRx) := by
  constructor
  · constructor
    · intro hcl
      by_contra hlt
      simp [kaStep, hopen, check_client_keepalive, hlt] at hcl
    · intro hle
      simp [kaStep, hopen, check_client_keepalive, hle]
  · intro htx hcl
    have h1 : keepalive_timeout ≤ s.lastTx - s.lastRx := by
      by_contra hlt
      simp [kaStep, hopen, check_client_keepalive, hlt] at hcl
    omega

/-- C2 amended witness: a tick at `now = 6` with `last_tx = 5`,
`last_rx = 0`, timeout 5 closes the session, and `now − last_rx ≥ 5`. -/
theorem keepalive_tick_close_witness :
    ((kaStep 5 ⟨0, 5, false⟩ (.tick 6)).closed = true ↔ 5 ≤ 5 - 0)
    ∧ (5 ≤ 6 → (kaStep 5 ⟨0, 5, false⟩ (.tick 6)).closed = true → 5 ≤ 6 - 0) :=
  keepalive_tick_close 5 ⟨0, 5, false⟩ 6 rfl

end Worterbuch.Ka

namespace Worterbuch.Session

/-! ## Session message processing (`worterbuch/src/server/common.rs`)

`process_incoming_message` and its helpers are modelled as pure functions.
The store actor behind `CloneableWbApi` is an oracle (`WbApi`) giving the
result of each forwarded request; the messages sent to the client and the
requests forwarded to the actor are returned as lists. Channel sends are
modelled on their happy path (a failed send tears the session down and is
outside the claims considered here), and the per-subscription forwarder
tasks spawned on successful subscriptions are not modelled (the aggregation
loop, which one claim is about, is modelled separately below). `JwtClaims`
and `get_claims` live in the `auth` module, which is not part of the sources;
only the signature of `JwtClaims::authorize` matters here, so claims are
modelled as an abstract authorization function. -/

/-- Rust `Privilege` (`Read`/`Write`/`Delete`). -/
inductive Privilege where
  | read
  | write
  | delete
deriving DecidableEq, Repr

/-- Display form of a privilege (its Rust `Display`). -/
def Privilege.display : Privilege → String
  | .read => "Read"
  | .write => "Write"
  | .delete => "Delete"

/-- Rust `AuthorizationError` (worterbuch-common `error.rs`). -/
inductive AuthorizationError where
  | insufficientPrivileges (privilege : Privilege) (pattern : String)
  | tokenDecodeError (msg : String)
  | missingToken
  | missingSecret
deriving DecidableEq, Repr

/-- `AuthorizationError`'s `Display` (per `error.rs`). -/
def AuthorizationError.display : AuthorizationError → String
  | .insufficientPrivileges privilege pattern =>
      "Client does not have " ++ privilege.display ++ " access to '" ++ pattern ++ "'"
  | .tokenDecodeError msg => msg
  | .missingToken => "No JWT was included in the request"
  | .missingSecret => "No JWT was configured"

/-- Rust `JwtClaims` (from the `auth` module, not under the sources): only its
`authorize` method is relevant, modelled as a function returning the
authorization error if the privilege is not granted on the pattern. -/
structure JwtClaims where
  authorize : Privilege → String → Option AuthorizationError

/-- The error codes of worterbuch-common (`ErrorCode`), with the
authentication-related names as used by `server/common.rs`. -/
inductive ErrorCode where
  | illegalWildcard
  | illegalMultiWildcard
  | multiWildcardAtIllegalPosition
  | noSuchValue
  | notSubscribed
  | ioError
  | serdeError
  | protocolNegotiationFailed
  | invalidServerResponse
  | readOnlyKey
  | authenticationRequired
  | alreadyAuthenticated
  | authenticationFailed
  | unauthorized
  | other
deriving DecidableEq, Repr

/-- Rust `Err` server message (transaction id, error code, metadata). -/
structure Err where
  transaction_id : Nat
  error_code : ErrorCode
  metadata : String
deriving DecidableEq, Repr

/-- Rust `WorterbuchError`, with the variants matched by
`server/common.rs` (`Box<dyn Error>` causes modelled as strings). -/
inductive WorterbuchError where
  | illegalWildcard (pattern : String)
  | illegalMultiWildcard (pattern : String)
  | multiWildcardAtIllegalPosition (pattern : String)
  | noSuchValue (key : String)
  | notSubscribed
  | ioError (cause : String) (meta : String)
  | serDeError (cause : String) (meta : String)
  | invalidServerResponse (meta : String)
  | other (cause : String) (meta : String)
  | serverResponse (e : Err)
  | protocolNegotiationFailed
  | readOnlyKey (key : String)
  | authenticationFailed
  | authenticationRequired (privilege : Privilege)
  | alreadyAuthenticated
  | unauthorized (e : AuthorizationError)
deriving DecidableEq, Repr

/-- `ErrorCode::from(&WorterbuchError)` (worterbuch-common `error.rs`). -/
def errorCode : WorterbuchError → ErrorCode
  | .illegalWildcard _ => .illegalWildcard
  | .illegalMultiWildcard _ => .illegalMultiWildcard
  | .multiWildcardAtIllegalPosition _ => .multiWildcardAtIllegalPosition
  | .noSuchValue _ => .noSuchValue
  | .notSubscribed => .notSubscribed
  | .ioError _ _ => .ioError
  | .serDeError _ _ => .serdeError
  | .protocolNegotiationFailed => .protocolNegotiationFailed
  | .invalidServerResponse _ => .invalidServerResponse
  | .readOnlyKey _ => .readOnlyKey
  | .authenticationRequired _ => .authenticationRequired
  | .alreadyAuthenticated => .alreadyAuthenticated
  | .authenticationFailed => .authenticationFailed
  | .unauthorized _ => .unauthorized
  | .other _ _ => .other
  | .serverResponse _ => .other

/-- `serde_json::to_string` of a string value: quoted, with backslashes and
quotes escaped (the control-character escapes of JSON do not occur in the
metadata strings built here). -/
def jsonString (s : String) : String :=
  "\"" ++ String.join (s.toList.map (fun c =>
    if c = '"' then "\\\"" else if c = '\\' then "\\\\" else String.mk [c])) ++ "\""

/-- `serde_json::to_string` of the `Meta` helper struct (fields `cause` and
`meta`). -/
def jsonMeta (cause meta : String) : String :=
  "\x7b\"cause\":" ++ jsonString cause ++ ",\"meta\":" ++ jsonString meta ++ "\x7d"

/-- `handle_store_error`: build the `Err` frame for a store error. The
`ServerResponse`/`InvalidServerResponse` arms abort in Rust ("store must not
produce this error"); they yield `none` here. -/
def handle_store_error (e : WorterbuchError) (transaction_id : Nat) : Option Err :=
  let error_code := errorCode e
  match e with
  | .illegalWildcard pattern =>
      some ⟨transaction_id, error_code, jsonString pattern⟩
  | .illegalMultiWildcard pattern =>
      some ⟨transaction_id, error_code, jsonString pattern⟩
  | .multiWildcardAtIllegalPosition pattern =>
      some ⟨transaction_id, error_code, jsonString pattern⟩
  | .noSuchValue key =>
      some ⟨transaction_id, error_code, jsonString ("no value for key '" ++ key ++ "'")⟩
  | .notSubscribed =>
      some ⟨transaction_id, error_code,
        jsonString ("no subscription found for transaction id '" ++
          toString transaction_id ++ "'")⟩
  | .ioError cause meta =>
      some ⟨transaction_id, error_code, jsonMeta cause meta⟩
  | .serDeError cause meta =>
      some ⟨transaction_id, error_code, jsonMeta cause meta⟩
  | .protocolNegotiationFailed =>
      some ⟨transaction_id, error_code,
        jsonString "server does not implement any of the protocl versions supported by this client"⟩
  | .other cause meta =>
      some ⟨transaction_id, error_code, jsonMeta cause meta⟩
  | .serverResponse _ => none
  | .invalidServerResponse _ => none
  | .readOnlyKey key =>
      some ⟨transaction_id, error_code,
        jsonString ("tried to delete read only key '" ++ key ++ "'")⟩
  | .authenticationFailed =>
      some ⟨transaction_id, error_code, jsonString "client failed to authenticate"⟩
  | .authenticationRequired op =>
      some ⟨transaction_id, error_code,
        jsonString ("operation " ++ op.display ++ " requires authentication")⟩
  | .alreadyAuthenticated =>
      some ⟨transaction_id, error_code,
        jsonString "handshake has already been completed, cannot do it again"⟩
  | .unauthorized auth_err =>
      some ⟨transaction_id, error_code, auth_err.display⟩

/-- A store error is recoverable when `handle_store_error` produces a frame
for it (everything except the two aborting arms). -/
def recoverable : WorterbuchError → Bool
  | .serverResponse _ => false
  | .invalidServerResponse _ => false
  | _ => true

/-- Rust `LsState`. -/
structure LsState where
  transaction_id : Nat
  children : List String

/-- The server messages a session sends while processing client requests
(`Welcome`/`Keepalive` are produced elsewhere in the loop). -/
inductive ServerMessage where
  | authenticated (a : Js.Ack)
  | ack (a : Js.Ack)
  | state (s : Js.State)
  | pState (p : Js.PState)
  | lsState (l : LsState)
  | err (e : Err)

/-- Rust `ClientMessage` as matched by `process_incoming_message`. -/
inductive ClientMessage where
  | authenticationRequest (auth_token : String)
  | get (transaction_id : Nat) (key : String)
  | pGet (transaction_id : Nat) (request_pattern : String)
  | set (transaction_id : Nat) (key : String) (value : Js.Json)
  | publish (transaction_id : Nat) (key : String) (value : Js.Json)
  | subscribe (transaction_id : Nat) (key : String) (unique : Bool)
      (live_only : Option Bool)
  | pSubscribe (transaction_id : Nat) (request_pattern : String) (unique : Bool)
      (live_only : Option Bool) (aggregate_events : Option Nat)
  | unsubscribe (transaction_id : Nat)
  | delete (transaction_id : Nat) (key : String)
  | pDelete (transaction_id : Nat) (request_pattern : String)
  | ls (transaction_id : Nat) (parent : Option String)
  | subscribeLs (transaction_id : Nat) (parent : Option String)
  | unsubscribeLs (transaction_id : Nat)
  | keepalive

/-- The store actor as an oracle: the result each forwarded request would
produce (`CloneableWbApi`; subscription success payloads — the event
receiver — are abstracted away). -/
structure WbApi where
  get : String → Except WorterbuchError (String × Js.Json)
  pget : String → Except WorterbuchError (List Js.KeyValuePair)
  set : String → Js.Json → String → Except WorterbuchError Unit
  publish : String → Js.Json → Except WorterbuchError Unit
  ls : Option String → Except WorterbuchError (List String)
  subscribe : Nat → String → Bool → Bool → Except WorterbuchError Unit
  psubscribe : Nat → String → Bool → Bool → Except WorterbuchError Unit
  subscribe_ls : Nat → Option String → Except WorterbuchError Unit
  unsubscribe : Nat → Except WorterbuchError Unit
  unsubscribe_ls : Nat → Except WorterbuchError Unit
  delete : String → String → Except WorterbuchError (String × Js.Json)
  pdelete : String → String → Except WorterbuchError (List Js.KeyValuePair)

/-- A request forwarded to the actor. -/
inductive ActorCall where
  | get (key : String)
  | pget (pattern : String)
  | set (key : String) (value : Js.Json)
  | publish (key : String) (value : Js.Json)
  | ls (parent : Option String)
  | subscribe (transaction_id : Nat) (key : String)
  | psubscribe (transaction_id : Nat) (pattern : String)
  | subscribeLs (transaction_id : Nat) (parent : Option String)
  | unsubscribe (transaction_id : Nat)
  | unsubscribeLs (transaction_id : Nat)
  | delete (key : String)
  | pdelete (pattern : String)

/-- Result of `process_incoming_message`: `ok processed authenticated`
models `Ok((processed, authenticated))`, `err e` an `Err(e)` return, `fatal`
the aborting arms of `handle_store_error`. -/
inductive Outcome where
  | ok (msg_processed : Bool) (authenticated : Option JwtClaims)
  | err (e : WorterbuchError)
  | fatal

/-- What one `process_incoming_message` call did: its return value, the
messages sent to the client, and the requests forwarded to the actor. -/
structure ProcResult where
  outcome : Outcome
  sent : List ServerMessage
  actor : List ActorCall

/-- `check_auth`: when authentication is required, an unauthenticated session
fails with `AuthenticationRequired`; a session whose claims do not grant the
privilege on the pattern is sent an `Err` frame (via `handle_store_error`)
and fails with `Unauthorized`. -/
def check_auth (auth_required : Bool) (privilege : Privilege) (pattern : String)
    (auth : Option JwtClaims) (transaction_id : Nat) :
    Except WorterbuchError Unit × List ServerMessage :=
  if auth_required then
    match auth with
    | some claims =>
        match claims.authorize privilege pattern with
        | some e =>
            match handle_store_error (.unauthorized e) transaction_id with
            | some frame => (.error (.unauthorized e), [ServerMessage.err frame])
            | none => (.error (.unauthorized e), [])
        | none => (.ok (), [])
    | none => (.error (.authenticationRequired privilege), [])
  else (.ok (), [])

end Worterbuch.Session

namespace Worterbuch.Session

/-- `get`: forward to the actor; send `State(KeyValue)` on success, an `Err`
frame (and keep the session alive) on a store error. -/
def do_get (transaction_id : Nat) (key : String) (api : WbApi) : ProcResult :=
  match api.get key with
  | .ok key_value =>
      ⟨.ok true none,
        [.state ⟨transaction_id, .keyValue ⟨key_value.1, key_value.2⟩⟩], [.get key]⟩
  | .error e =>
      match handle_store_error e transaction_id with
      | some frame => ⟨.ok true none, [.err frame], [.get key]⟩
      | none => ⟨.fatal, [], [.get key]⟩

/-- `pget`: `PState(KeyValuePairs)` on success. -/
def do_pget (transaction_id : Nat) (request_pattern : String) (api : WbApi) : ProcResult :=
  match api.pget request_pattern with
  | .ok values =>
      ⟨.ok true none,
        [.pState ⟨transaction_id, request_pattern, .keyValuePairs values⟩],
        [.pget request_pattern]⟩
  | .error e =>
      match handle_store_error e transaction_id with
      | some frame => ⟨.ok true none, [.err frame], [.pget request_pattern]⟩
      | none => ⟨.fatal, [], [.pget request_pattern]⟩

/-- `set`: `Ack` on success. -/
def do_set (transaction_id : Nat) (key : String) (value : Js.Json)
    (client_id : String) (api : WbApi) : ProcResult :=
  match api.set key value client_id with
  | .ok _ => ⟨.ok true none, [.ack ⟨transaction_id⟩], [.set key value]⟩
  | .error e =>
      match handle_store_error e transaction_id with
      | some frame => ⟨.ok true none, [.err frame], [.set key value]⟩
      | none => ⟨.fatal, [], [.set key value]⟩

/-- `publish`: `Ack` on success. -/
def do_publish (transaction_id : Nat) (key : String) (value : Js.Json)
    (api : WbApi) : ProcResult :=
  match api.publish key value with
  | .ok _ => ⟨.ok true none, [.ack ⟨transaction_id⟩], [.publish key value]⟩
  | .error e =>
      match handle_store_error e transaction_id with
      | some frame => ⟨.ok true none, [.err frame], [.publish key value]⟩
      | none => ⟨.fatal, [], [.publish key value]⟩

/-- `subscribe`: `Ack` on success (the spawned per-subscription forwarder
task is not modelled); `Err` frame and `Ok` on a store error. -/
def do_subscribe (transaction_id : Nat) (key : String) (unique live_only : Bool)
    (api : WbApi) : ProcResult :=
  match api.subscribe transaction_id key unique live_only with
  | .ok _ => ⟨.ok true none, [.ack ⟨transaction_id⟩], [.subscribe transaction_id key]⟩
  | .error e =>
      match handle_store_error e transaction_id with
      | some frame => ⟨.ok true none, [.err frame], [.subscribe transaction_id key]⟩
      | none => ⟨.fatal, [], [.subscribe transaction_id key]⟩

/-- `psubscribe`: `Ack` on success (the spawned forwarder or aggregator task
is not modelled here; see `aggregate_loop`). -/
def do_psubscribe (transaction_id : Nat) (request_pattern : String)
    (unique live_only : Bool) (api : WbApi) : ProcResult :=
  match api.psubscribe transaction_id request_pattern unique live_only with
  | .ok _ =>
      ⟨.ok true none, [.ack ⟨transaction_id⟩], [.psubscribe transaction_id request_pattern]⟩
  | .error e =>
      match handle_store_error e transaction_id with
      | some frame =>
          ⟨.ok true none, [.err frame], [.psubscribe transaction_id request_pattern]⟩
      | none => ⟨.fatal, [], [.psubscribe transaction_id request_pattern]⟩

/-- `unsubscribe`: `Ack` on success. -/
def do_unsubscribe (transaction_id : Nat) (api : WbApi) : ProcResult :=
  match api.unsubscribe transaction_id with
  | .ok _ => ⟨.ok true none, [.ack ⟨transaction_id⟩], [.unsubscribe transaction_id]⟩
  | .error e =>
      match handle_store_error e transaction_id with
      | some frame => ⟨.ok true none, [.err frame], [.unsubscribe transaction_id]⟩
      | none => ⟨.fatal, [], [.unsubscribe transaction_id]⟩

/-- `delete`: `State(Deleted)` on success. -/
def do_delete (transaction_id : Nat) (key : String) (client_id : String)
    (api : WbApi) : ProcResult :=
  match api.delete key client_id with
  | .ok key_value =>
      ⟨.ok true none, [.state ⟨transaction_id, .deleted key_value.1⟩], [.delete key]⟩
  | .error e =>
      match handle_store_error e transaction_id with
      | some frame => ⟨.ok true none, [.err frame], [.delete key]⟩
      | none => ⟨.fatal, [], [.delete key]⟩

/-- `pdelete`: `PState(Deleted)` on success. -/
def do_pdelete (transaction_id : Nat) (request_pattern : String) (client_id : String)
    (api : WbApi) : ProcResult :=
  match api.pdelete request_pattern client_id with
  | .ok deleted =>
      ⟨.ok true none,
        [.pState ⟨transaction_id, request_pattern,
          .deleted (deleted.map (fun kvp => kvp.key))⟩],
        [.pdelete request_pattern]⟩
  | .error e =>
      match handle_store_error e transaction_id with
      | some frame => ⟨.ok true none, [.err frame], [.pdelete request_pattern]⟩
      | none => ⟨.fatal, [], [.pdelete request_pattern]⟩

/-- `ls`: `LsState` on success. -/
def do_ls (transaction_id : Nat) (parent : Option String) (api : WbApi) : ProcResult :=
  match api.ls parent with
  | .ok children =>
      ⟨.ok true none, [.lsState ⟨transaction_id, children⟩], [.ls parent]⟩
  | .error e =>
      match handle_store_error e transaction_id with
      | some frame => ⟨.ok true none, [.err frame], [.ls parent]⟩
      | none => ⟨.fatal, [], [.ls parent]⟩

/-- `subscribe_ls`: `Ack` on success (forwarder task not modelled). -/
def do_subscribe_ls (transaction_id : Nat) (parent : Option String)
    (api : WbApi) : ProcResult :=
  match api.subscribe_ls transaction_id parent with
  | .ok _ =>
      ⟨.ok true none, [.ack ⟨transaction_id⟩], [.subscribeLs transaction_id parent]⟩
  | .error e =>
      match handle_store_error e transaction_id with
      | some frame =>
          ⟨.ok true none, [.err frame], [.subscribeLs transaction_id parent]⟩
      | none => ⟨.fatal, [], [.subscribeLs transaction_id parent]⟩

/-- `unsubscribe_ls`: `Ack` on success. -/
def do_unsubscribe_ls (transaction_id : Nat) (api : WbApi) : ProcResult :=
  match api.unsubscribe_ls transaction_id with
  | .ok _ => ⟨.ok true none, [.ack ⟨transaction_id⟩], [.unsubscribeLs transaction_id]⟩
  | .error e =>
      match handle_store_error e transaction_id with
      | some frame => ⟨.ok true none, [.err frame], [.unsubscribeLs transaction_id]⟩
      | none => ⟨.fatal, [], [.unsubscribeLs transaction_id]⟩

/-- `authenticate`: decode the token (`get_claims` is in the `auth` module,
not under the sources, and is passed in as an oracle); `Authenticated`
acknowledgement on success, `Err` frame and `Unauthorized` on failure. -/
def authenticate (auth_token : String)
    (get_claims : String → Except AuthorizationError JwtClaims) : ProcResult :=
  match get_claims auth_token with
  | .ok claims => ⟨.ok true (some claims), [.authenticated ⟨0⟩], []⟩
  | .error e =>
      match handle_store_error (.unauthorized e) 0 with
      | some frame => ⟨.err (.unauthorized e), [.err frame], []⟩
      | none => ⟨.fatal, [], []⟩

/-- The `Ok(Some(msg))` branch of `process_incoming_message`: authentication
gate, per-operation authorization (`check_auth`), then dispatch. -/
def process_client_message (client_id : Nat) (msg : ClientMessage) (api : WbApi)
    (auth_required : Bool) (auth : Option JwtClaims)
    (get_claims : String → Except AuthorizationError JwtClaims) : ProcResult :=
  match msg with
  | .authenticationRequest token =>
      if auth.isSome then ⟨.err .alreadyAuthenticated, [], []⟩
      else authenticate token get_claims
  | .get transaction_id key =>
      match check_auth auth_required .read key auth transaction_id with
      | (.error e, sent) => ⟨.err e, sent, []⟩
      | (.ok _, _) => do_get transaction_id key api
  | .pGet transaction_id request_pattern =>
      match check_auth auth_required .read request_pattern auth transaction_id with
      | (.error e, sent) => ⟨.err e, sent, []⟩
      | (.ok _, _) => do_pget transaction_id request_pattern api
  | .set transaction_id key value =>
      match check_auth auth_required .write key auth transaction_id with
      | (.error e, sent) => ⟨.err e, sent, []⟩
      | (.ok _, _) => do_set transaction_id key value (toString client_id) api
  | .publish transaction_id key value =>
      match check_auth auth_required .write key auth transaction_id with
      | (.error e, sent) => ⟨.err e, sent, []⟩
      | (.ok _, _) => do_publish transaction_id key value api
  | .subscribe transaction_id key unique live_only =>
      match check_auth auth_required .read key auth transaction_id with
      | (.error e, sent) => ⟨.err e, sent, []⟩
      | (.ok _, _) => do_subscribe transaction_id key unique (live_only.getD false) api
  | .pSubscribe transaction_id request_pattern unique live_only _ =>
      match check_auth auth_required .read request_pattern auth transaction_id with
      | (.error e, sent) => ⟨.err e, sent, []⟩
      | (.ok _, _) =>
          do_psubscribe transaction_id request_pattern unique (live_only.getD false) api
  | .unsubscribe transaction_id => do_unsubscribe transaction_id api
  | .delete transaction_id key =>
      match check_auth auth_required .delete key auth transaction_id with
      | (.error e, sent) => ⟨.err e, sent, []⟩
      | (.ok _, _) => do_delete transaction_id key (toString client_id) api
  | .pDelete transaction_id request_pattern =>
      match check_auth auth_required .delete request_pattern auth transaction_id with
      | (.error e, sent) => ⟨.err e, sent, []⟩
      | (.ok _, _) => do_pdelete transaction_id request_pattern (toString client_id) api
  | .ls transaction_id parent =>
      let pattern := match parent with
        | some it => it ++ "/?"
        | none => "?"
      match check_auth auth_required .read pattern auth transaction_id with
      | (.error e, sent) => ⟨.err e, sent, []⟩
      | (.ok _, _) => do_ls transaction_id parent api
  | .subscribeLs transaction_id parent =>
      let pattern := match parent with
        | some it => it ++ "/?"
        | none => "?"
      match check_auth auth_required .read pattern auth transaction_id with
      | (.error e, sent) => ⟨.err e, sent, []⟩
      | (.ok _, _) => do_subscribe_ls transaction_id parent api
  | .unsubscribeLs transaction_id => do_unsubscribe_ls transaction_id api
  | .keepalive => ⟨.ok true none, [], []⟩

/-- `process_incoming_message`: JSON decoding of the wire text is modelled by
its outcome; `Ok(None)` (client disconnect) and decode errors report the
connection as no longer alive without an error. -/
def process_incoming_message (client_id : Nat)
    (parsed : Except String (Option ClientMessage)) (api : WbApi)
    (auth_required : Bool) (auth : Option JwtClaims)
    (get_claims : String → Except AuthorizationError JwtClaims) : ProcResult :=
  match parsed with
  | .ok (some msg) => process_client_message client_id msg api auth_required auth get_claims
  | .ok none => ⟨.ok false none, [], []⟩
  | .error _ => ⟨.ok false none, [], []⟩

/-- `aggregate_loop` (the per-subscription task of an aggregated pattern
subscription): with `live_only == false` the first event received from the
subscription channel is sent to the client directly as one `PState` frame,
and only the later events reach the `PStateAggregator`; with
`live_only == true` every event goes to the aggregator. The returned pair is
(frames sent directly, events handed to `aggregator.aggregate`). -/
def aggregate_loop (events : List Js.PStateEvent) (transaction_id : Nat)
    (request_pattern : String) (live_only : Bool) :
    List ServerMessage × List Js.PStateEvent :=
  if live_only then
    ([], events)
  else
    match events with
    | [] => ([], [])
    | event :: rest => ([.pState ⟨transaction_id, request_pattern, event⟩], rest)

end Worterbuch.Session

namespace Worterbuch.Session

theorem handle_store_error_recoverable (e : WorterbuchError)
    (he : recoverable e = true) (transaction_id : Nat) :
    ∃ meta, handle_store_error e transaction_id =
      some ⟨transaction_id, errorCode e, meta⟩ := by
  cases e <;> (try simp [recoverable] at he) <;> exact ⟨_, rfl⟩

/-- An actor oracle that fails every request with the same store error. -/
def failApi (e : WorterbuchError) : WbApi where
  get := fun _ => .error e
  pget := fun _ => .error e
  set := fun _ _ _ => .error e
  publish := fun _ _ => .error e
  ls := fun _ => .error e
  subscribe := fun _ _ _ _ => .error e
  psubscribe := fun _ _ _ _ => .error e
  subscribe_ls := fun _ _ => .error e
  unsubscribe := fun _ => .error e
  unsubscribe_ls := fun _ => .error e
  delete := fun _ _ => .error e
  pdelete := fun _ _ => .error e

/-- C4: when a store operation requested in a Ready session fails with a
recoverable error, the session sends exactly one `Err` frame carrying the
request's transaction id and the error code mapped from the error, and
message processing reports the connection as still alive. -/
theorem store_error_one_err_frame_alive (e : WorterbuchError)
    (he : recoverable e = true) (client_id transaction_id : Nat)
    (key pattern : String) (value : Js.Json) (parent : Option String)
    (unique : Bool) (live_only : Option Bool) (aggregate_events : Option Nat)
    (get_claims : String → Except AuthorizationError JwtClaims) :
    ∀ m ∈ [ClientMessage.get transaction_id key,
           ClientMessage.pGet transaction_id pattern,
           ClientMessage.set transaction_id key value,
           ClientMessage.publish transaction_id key value,
           ClientMessage.delete transaction_id key,
           ClientMessage.pDelete transaction_id pattern,
           ClientMessage.ls transaction_id parent,
           ClientMessage.subscribe transaction_id key unique live_only,
           ClientMessage.pSubscribe transaction_id pattern unique live_only
             aggregate_events,
           ClientMessage.subscribeLs transaction_id parent,
           ClientMessage.unsubscribe transaction_id,
           ClientMessage.unsubscribeLs transaction_id],
      ∃ meta,
        (process_incoming_message client_id (.ok (some m)) (failApi e)
            false none get_claims).sent =
          [ServerMessage.err ⟨transaction_id, errorCode e, meta⟩]
        ∧ (process_incoming_message client_id (.ok (some m)) (failApi e)
            false none get_claims).outcome = Outcome.ok true none := by
  obtain ⟨meta, hmeta⟩ := handle_store_error_recoverable e he transaction_id
  intro m hm
  refine ⟨meta, ?_⟩
  simp only [List.mem_cons, List.not_mem_nil, or_false] at hm
  rcases hm with rfl | rfl | rfl | rfl | rfl | rfl | rfl | rfl | rfl | rfl | rfl | rfl <;>
    exact ⟨by simp [process_incoming_message, process_client_message, check_auth,
        do_get, do_pget, do_set, do_publish, do_delete, do_pdelete, do_ls,
        do_subscribe, do_psubscribe, do_subscribe_ls, do_unsubscribe,
        do_unsubscribe_ls, failApi, hmeta],
      by simp [process_incoming_message, process_client_message, check_auth,
        do_get, do_pget, do_set, do_publish, do_delete, do_pdelete, do_ls,
        do_subscribe, do_psubscribe, do_subscribe_ls, do_unsubscribe,
        do_unsubscribe_ls, failApi, hmeta]⟩

/-- C4 witness: a `Get` failing with `NoSuchValue`. -/
theorem store_error_one_err_frame_alive_witness :
    ∃ meta,
      (process_incoming_message 1 (.ok (some (ClientMessage.get 2 "k")))
          (failApi (.noSuchValue "k")) false none
          (fun _ => .error .missingSecret)).sent =
        [ServerMessage.err ⟨2, errorCode (.noSuchValue "k"), meta⟩]
      ∧ (process_incoming_message 1 (.ok (some (ClientMessage.get 2 "k")))
          (failApi (.noSuchValue "k")) false none
          (fun _ => .error .missingSecret)).outcome = Outcome.ok true none :=
  store_error_one_err_frame_alive (.noSuchValue "k") rfl 1 2 "k" "p" .null none
    false none none (fun _ => .error .missingSecret)
    (ClientMessage.get 2 "k") (by simp)

theorem do_ls_actor (transaction_id : Nat) (parent : Option String) (api : WbApi) :
    (do_ls transaction_id parent api).actor = [.ls parent] := by
  unfold do_ls
  split
  · rfl
  · split
    · rfl
    · rfl

theorem do_subscribe_ls_actor (transaction_id : Nat) (parent : Option String)
    (api : WbApi) :
    (do_subscribe_ls transaction_id parent api).actor =
      [.subscribeLs transaction_id parent] := by
  unfold do_subscribe_ls
  split
  · rfl
  · split
    · rfl
    · rfl

/-- C8: `Ls` and `SubscribeLs` requests are authorized for the Read privilege
against the pattern `parent ++ "/?"` (or `"?"` with no parent); a request
failing that check is answered with an `Err` frame and not forwarded to the
actor, while a request passing it is forwarded. -/
theorem ls_authorization_pattern (client_id transaction_id : Nat)
    (parent : Option String) (claims : JwtClaims) (api : WbApi)
    (get_claims : String → Except AuthorizationError JwtClaims) :
    (∀ a, claims.authorize .read
        ((parent.map (fun it => it ++ "/?")).getD "?") = some a →
      process_incoming_message client_id
          (.ok (some (.ls transaction_id parent))) api true (some claims) get_claims =
        ⟨.err (.unauthorized a),
         [.err ⟨transaction_id, .unauthorized, a.display⟩], []⟩
      ∧ process_incoming_message client_id
          (.ok (some (.subscribeLs transaction_id parent))) api true (some claims)
            get_claims =
        ⟨.err (.unauthorized a),
         [.err ⟨transaction_id, .unauthorized, a.display⟩], []⟩)
    ∧ (claims.authorize .read
        ((parent.map (fun it => it ++ "/?")).getD "?") = none →
      (process_incoming_message client_id
          (.ok (some (.ls transaction_id parent))) api true (some claims)
            get_claims).actor = [.ls parent]
      ∧ (process_incoming_message client_id
          (.ok (some (.subscribeLs transaction_id parent))) api true (some claims)
            get_claims).actor = [.subscribeLs transaction_id parent]) := by
  constructor
  · intro a ha
    cases parent <;>
      simp_all [process_incoming_message, process_client_message, check_auth,
        handle_store_error, errorCode, Option.map, Option.getD]
  · intro h
    cases parent <;>
      simp_all [process_incoming_message, process_client_message, check_auth,
        Option.map, Option.getD, do_ls_actor, do_subscribe_ls_actor]

/-- C8 witness: a parented `ls`/`subscribeLs` denied by claims that refuse
everything. -/
theorem ls_authorization_pattern_witness :
    process_incoming_message 1 (.ok (some (.ls 9 (some "par"))))
        (failApi .notSubscribed) true
        (some ⟨fun _ _ => some .missingToken⟩) (fun _ => .error .missingSecret) =
      ⟨.err (.unauthorized .missingToken),
       [.err ⟨9, .unauthorized, AuthorizationError.missingToken.display⟩], []⟩
    ∧ process_incoming_message 1 (.ok (some (.subscribeLs 9 (some "par"))))
        (failApi .notSubscribed) true
        (some ⟨fun _ _ => some .missingToken⟩) (fun _ => .error .missingSecret) =
      ⟨.err (.unauthorized .missingToken),
       [.err ⟨9, .unauthorized, AuthorizationError.missingToken.display⟩], []⟩ :=
  (ls_authorization_pattern 1 9 (some "par") ⟨fun _ _ => some .missingToken⟩
    (failApi .notSubscribed) (fun _ => .error .missingSecret)).1 .missingToken rfl

/-- C7: in `aggregate_loop` with `live_only == false`, the first event
received from the subscription channel is sent to the client immediately as a
single `PState` frame and only the remaining events reach the aggregator;
with `live_only == true` nothing is forwarded directly and every event goes
through the aggregator. -/
theorem aggregate_loop_first_event (transaction_id : Nat) (request_pattern : String)
    (events : List Js.PStateEvent) :
    (∀ event rest, events = event :: rest →
      aggregate_loop events transaction_id request_pattern false =
        ([ServerMessage.pState ⟨transaction_id, request_pattern, event⟩], rest))
    ∧ aggregate_loop events transaction_id request_pattern true = ([], events) := by
  constructor
  · rintro event rest rfl
    rfl
  · rfl

/-- C7 witness: a two-event stream. -/
theorem aggregate_loop_first_event_witness :
    (∀ event rest,
      ([Js.PStateEvent.deleted ["a"], Js.PStateEvent.deleted ["b"]] :
          List Js.PStateEvent) = event :: rest →
      aggregate_loop [Js.PStateEvent.deleted ["a"], Js.PStateEvent.deleted ["b"]] 3 "a/#"
          false = ([ServerMessage.pState ⟨3, "a/#", event⟩], rest))
    ∧ aggregate_loop [Js.PStateEvent.deleted ["a"], Js.PStateEvent.deleted ["b"]] 3 "a/#"
        true = ([], [Js.PStateEvent.deleted ["a"], Js.PStateEvent.deleted ["b"]]) :=
  aggregate_loop_first_event 3 "a/#" _

/-- C10: a session that has already authenticated and receives a second
`AuthenticationRequest` gets the `AlreadyAuthenticated` error from message
processing, with no message sent and nothing forwarded to the actor (so no
change to subscriptions or the store). -/
theorem already_authenticated_rejected (client_id : Nat) (auth_token : String)
    (api : WbApi) (auth_required : Bool) (claims : JwtClaims)
    (get_claims : String → Except AuthorizationError JwtClaims) :
    process_incoming_message client_id
        (.ok (some (.authenticationRequest auth_token))) api auth_required
        (some claims) get_claims =
      ⟨.err .alreadyAuthenticated, [], []⟩ :=
  rfl

end Worterbuch.Session
